/-
Verification of the OpenAuth OAuth connection broker against its
natural-language specification.

The definitions below are a shallow embedding of the TypeScript source:
  * packages/server/src/lib/encryption.ts   (Credential Vault)
  * packages/server/src/lib/oauth.ts        (OAuth Protocol Engine)
  * packages/server/app/api/connect/sessions/route.ts  (session creation)
  * packages/server/app/api/connect/callback/route.ts  (callback handler)
  * the connections token route (GET /api/connections/:provider/:id/token)
  * packages/server/src/db/schema.ts        (data model)

Conventions of the embedding:
  * Bytes are `Nat` values (< 256 in practice; XOR keeps that range).
  * Timestamps are `Nat` milliseconds since the epoch (`Date.now()`).
  * JavaScript truthiness on optional strings / numbers is modelled
    explicitly (`jsTruthyS`, `jsTruthyN`): `null`/`undefined` and the
    empty string / the number 0 are falsy.
  * Database tables are lists of rows; `limit 1` selects become
    `List.find?`; `update ... where` becomes a `List.map` guarded on the
    row predicate, exactly mirroring which rows the SQL touches.
  * Outbound HTTP and JSON parsing are oracles passed as parameters: a
    run of a handler is deterministic in the response the network gave.
  * AES-256-GCM is modelled as CTR-mode XOR with a keystream plus a tag
    function over (iv, ciphertext); both come from an abstract
    `GCMCipher` so that nothing about the cipher itself is assumed.
    The wire format (iv ++ tag ++ ciphertext, lengths 12/16/variable)
    and the length guard are taken verbatim from encryption.ts; base64
    transport is left implicit (all claims speak of decoded bytes).
-/
import Mathlib

namespace OpenAuth

/-- JavaScript truthiness of an optional string: `null`/`undefined` and
`""` are falsy, every other string is truthy. -/
def jsTruthyS : Option String → Bool
  | none => false
  | some s => !(s == "")

/-- JavaScript truthiness of an optional number: `null`/`undefined` and
`0` are falsy. -/
def jsTruthyN : Option Nat → Bool
  | none => false
  | some n => !(n == 0)

/- ──────────────────────────  Credential Vault  ─────────────────────────
   From packages/server/src/lib/encryption.ts.  IV_LENGTH = 12,
   TAG_LENGTH = 16; packed wire format iv ++ authTag ++ ciphertext. -/

/-- Abstract AES-256-GCM primitive for a fixed 32-byte key: a keystream
(indexed by iv and byte position, as in CTR mode) and an authentication
tag computed from the iv and the ciphertext.  `tagLen` records that GCM
tags are 16 bytes. -/
structure GCMCipher where
  ks : List Nat → Nat → Nat
  tagOf : List Nat → List Nat → List Nat
  tagLen : ∀ iv ct, (tagOf iv ct).length = 16

/-- CTR-mode masking from position `i` on: XOR each byte with the
keystream byte at its position.  Applying it twice with the same iv is
the identity, which is exactly how GCM decryption recovers the
plaintext. -/
def gcmMask (c : GCMCipher) (iv : List Nat) : Nat → List Nat → List Nat
  | _, [] => []
  | i, b :: bs => (b ^^^ c.ks iv i) :: gcmMask c iv (i + 1) bs

/-- `encrypt` from encryption.ts: pack iv (12) ++ authTag (16) ++
ciphertext (variable).  The plaintext is the UTF-8 byte list of the
input string; the iv is the fresh 12-byte random nonce drawn by the
call. -/
def encrypt (c : GCMCipher) (iv : List Nat) (plaintext : List Nat) : List Nat :=
  iv ++ c.tagOf iv (gcmMask c iv 0 plaintext) ++ gcmMask c iv 0 plaintext

/-- Failure modes of `decrypt`: the explicit length guard
(`Invalid encrypted data: too short`) and the GCM auth-tag mismatch. -/
inductive DecryptError where
  | tooShort
  | authFailure
deriving DecidableEq, Repr

/-- `decrypt` from encryption.ts: the guard is
`packed.length < IV_LENGTH + TAG_LENGTH + 1`, i.e. `< 29`, then the
payload is unpacked at offsets 12 and 28 and the tag is checked. -/
def decrypt (c : GCMCipher) (packed : List Nat) : Except DecryptError (List Nat) :=
  if packed.length < 12 + 16 + 1 then
    .error .tooShort
  else
    let iv := packed.take 12
    let tag := (packed.drop 12).take 16
    let ct := packed.drop (12 + 16)
    if c.tagOf iv ct = tag then
      .ok (gcmMask c iv 0 ct)
    else
      .error .authFailure

/-- A concrete (degenerate) cipher instance used only to evaluate the
vault code on explicit inputs: zero keystream, all-zero tag. -/
def zeroCipher : GCMCipher where
  ks := fun _ _ => 0
  tagOf := fun _ _ => List.replicate 16 0
  tagLen := fun _ _ => List.length_replicate 16 0

/- ──────────────────────────  Provider Registry  ────────────────────────
   From packages/providers/src/types.ts (ProviderConfig) and the static
   configs under packages/providers/src/configs/. -/

inductive TokenAuthMethod where
  | body
  | header
deriving DecidableEq, Repr

inductive TokenResponseKind where
  | json
  | form
deriving DecidableEq, Repr

/-- `ProviderConfig` from packages/providers/src/types.ts.  URL strings
are kept; a URL's query parameters are handled separately as ordered
key/value lists where the engine manipulates them. -/
structure ProviderConfig where
  key : String
  name : String
  authorizationUrl : String
  tokenUrl : String
  refreshUrl : Option String
  defaultScopes : List String
  scopeSeparator : String
  tokenResponseType : TokenResponseKind
  authorizationParams : List (String × String)
  pkce : Bool
  tokenAuthMethod : TokenAuthMethod
deriving DecidableEq, Repr

/-- The `github` config from packages/providers/src/configs/github.ts
(`refreshUrl: null` — GitHub tokens don't expire, no refresh). -/
def github : ProviderConfig where
  key := "github"
  name := "GitHub"
  authorizationUrl := "https://github.com/login/oauth/authorize"
  tokenUrl := "https://github.com/login/oauth/access_token"
  refreshUrl := none
  defaultScopes := ["repo"]
  scopeSeparator := " "
  tokenResponseType := .json
  authorizationParams := []
  pkce := false
  tokenAuthMethod := .body

/-- The `linear` config from packages/providers/src/configs/linear.ts
(`refreshUrl: null`; extra authorization parameters define
`response_type: 'code'` and `prompt: 'consent'`). -/
def linear : ProviderConfig where
  key := "linear"
  name := "Linear"
  authorizationUrl := "https://linear.app/oauth/authorize"
  tokenUrl := "https://api.linear.app/oauth/token"
  refreshUrl := none
  defaultScopes := ["read", "write", "issues:create"]
  scopeSeparator := ","
  tokenResponseType := .json
  authorizationParams := [("response_type", "code"), ("prompt", "consent")]
  pkce := false
  tokenAuthMethod := .body

/-- The `slack` config from packages/providers/src/configs/slack.ts. -/
def slack : ProviderConfig where
  key := "slack"
  name := "Slack"
  authorizationUrl := "https://slack.com/oauth/v2/authorize"
  tokenUrl := "https://slack.com/api/oauth.v2.access"
  refreshUrl := none
  defaultScopes := ["chat:write", "channels:read"]
  scopeSeparator := ","
  tokenResponseType := .json
  authorizationParams := []
  pkce := false
  tokenAuthMethod := .body

/-- The `notion` config from packages/providers/src/configs/notion.ts. -/
def notion : ProviderConfig where
  key := "notion"
  name := "Notion"
  authorizationUrl := "https://api.notion.com/v1/oauth/authorize"
  tokenUrl := "https://api.notion.com/v1/oauth/token"
  refreshUrl := none
  defaultScopes := []
  scopeSeparator := " "
  tokenResponseType := .json
  authorizationParams := [("owner", "user")]
  pkce := false
  tokenAuthMethod := .header

/-- `ResolvedProvider` from packages/server/src/lib/providers.ts: a
registry config combined with the deployer's stored credentials. -/
structure ResolvedProvider where
  config : ProviderConfig
  clientId : String
  clientSecret : String
  scopes : String
  enabled : Bool

/- ──────────────────────────────  Data model  ───────────────────────────
   From packages/server/src/db/schema.ts. -/

inductive SessionStatus where
  | pending
  | completed
  | expired
deriving DecidableEq, Repr

/-- A row of the `connect_sessions` table. -/
structure ConnectSession where
  id : Nat
  token : String
  providerKey : String
  connectionId : String
  state : String
  codeVerifier : Option String
  status : SessionStatus
  redirectUri : Option String
  createdAt : Nat
  expiresAt : Nat
deriving DecidableEq, Repr

/-- A row of the `connections` table. -/
structure Connection where
  id : Nat
  providerKey : String
  connectionId : String
  accessTokenEnc : String
  refreshTokenEnc : Option String
  tokenExpiresAt : Option Nat
  scopes : Option String
  rawCredentials : Option String
  metadata : Option String
  createdAt : Nat
  updatedAt : Nat
deriving DecidableEq, Repr

/- ────────────────────────  OAuth Protocol Engine  ──────────────────────
   From packages/server/src/lib/oauth.ts. -/

/-- The parsed body of a provider token response (`TokenResponse` in
oauth.ts); `raw` carries the full provider response so that
`JSON.stringify(tokenResponse)` can be modelled as a field. -/
structure TokenResponse where
  access_token : String
  refresh_token : Option String
  expires_in : Option Nat
  scope : Option String
  raw : String
deriving DecidableEq, Repr

/-- An upstream HTTP response as the handler observes it: `res.ok`,
`res.status`, and the body text. -/
structure HttpResponse where
  ok : Bool
  status : Nat
  body : String
deriving DecidableEq, Repr

/-- `URLSearchParams.set` semantics: replace the value of the first
occurrence of the key in place, drop any later occurrences, or append
when the key is absent. -/
def setParam : List (String × String) → String → String → List (String × String)
  | [], k, v => [(k, v)]
  | p :: ps, k, v =>
      if p.1 = k then (k, v) :: ps.filter (fun q => q.1 ≠ k)
      else p :: setParam ps k v

/-- `URLSearchParams.get`: the value of the first occurrence of the key,
or `none`. -/
def lookupParam : List (String × String) → String → Option String
  | [], _ => none
  | p :: ps, k => if p.1 = k then some p.2 else lookupParam ps k

/-- `buildAuthorizationUrl` from oauth.ts, modelled on the query
parameter list of the resulting URL.  `base` is the query already
present on `provider.authorizationUrl`; `scopes` is the optional caller
override (JS `scopes || defaultScopes.join(separator)` truthiness),
`codeChallenge` the optional PKCE challenge.  Descriptor
`authorizationParams` are applied last via `URLSearchParams.set`. -/
def buildAuthorizationUrl (provider : ProviderConfig)
    (clientId redirectUri state : String)
    (scopes : Option String) (codeChallenge : Option String)
    (base : List (String × String)) : List (String × String) :=
  let u0 := setParam (setParam (setParam base "client_id" clientId)
    "redirect_uri" redirectUri) "state" state
  let scopeString := if jsTruthyS scopes then scopes.getD ""
    else String.intercalate provider.scopeSeparator provider.defaultScopes
  let u1 := if scopeString = "" then u0 else setParam u0 "scope" scopeString
  let u2 :=
    if jsTruthyS (lookupParam provider.authorizationParams "response_type") then u1
    else setParam u1 "response_type" "code"
  let u3 :=
    if provider.pkce ∧ jsTruthyS codeChallenge then
      setParam (setParam u2 "code_challenge" (codeChallenge.getD ""))
        "code_challenge_method" "S256"
    else u2
  provider.authorizationParams.foldl (fun ps kv => setParam ps kv.1 kv.2) u3

/-- `exchangeCodeForTokens` from oauth.ts, restricted to what the
callback handler observes: a non-ok upstream response throws
`Token exchange failed (<status>): <body>`; an ok response is parsed
(JSON or form, per the descriptor) by the `parse` oracle. -/
def exchangeCodeForTokens (resp : HttpResponse)
    (parse : String → TokenResponse) : Except String TokenResponse :=
  if resp.ok then .ok (parse resp.body)
  else .error ("Token exchange failed (" ++ toString resp.status ++ "): " ++ resp.body)

/-- The network outcome of the refresh `fetch`: either the fetch itself
throws (network error) or an HTTP response arrives. -/
inductive RefreshHttp where
  | networkError (msg : String)
  | response (r : HttpResponse)

/-- `refreshAccessToken` from oauth.ts.  When the descriptor has no
`refreshUrl` it throws before any network I/O; otherwise it performs the
fetch and fails on a non-ok response
(`Token refresh failed (<status>): <body>`).  The second component
records whether the HTTP request was performed. -/
def refreshAccessToken (provider : ProviderConfig) (http : RefreshHttp)
    (parse : String → TokenResponse) : Except String TokenResponse × Bool :=
  match provider.refreshUrl with
  | none =>
      (.error ("Provider \x22" ++ provider.key ++ "\x22 does not support token refresh"),
       false)
  | some _ =>
      match http with
      | .networkError m => (.error m, true)
      | .response r =>
          if r.ok then (.ok (parse r.body), true)
          else (.error ("Token refresh failed (" ++ toString r.status ++ "): " ++ r.body),
            true)

/- ─────────────────────  Connect Session Manager  ───────────────────────
   From app/api/connect/sessions/route.ts (POST). -/

/-- Line 44 of sessions/route.ts:
`new Date(Date.now() + 10 * 60 * 1000)`. -/
def sessionExpiresAt (now : Nat) : Nat :=
  now + 10 * 60 * 1000

/-- The `connect_sessions` row inserted by POST /api/connect/sessions:
status `pending`, expiry 10 minutes from creation. -/
def newConnectSession (sid : Nat) (token pk cid st : String)
    (codeVerifier redirectUri : Option String) (now : Nat) : ConnectSession where
  id := sid
  token := token
  providerKey := pk
  connectionId := cid
  state := st
  codeVerifier := codeVerifier
  status := .pending
  redirectUri := redirectUri
  createdAt := now
  expiresAt := sessionExpiresAt now

/- ──────────────────────────  Callback handler  ─────────────────────────
   From app/api/connect/callback/route.ts (GET). -/

/-- The query string of the callback request. -/
structure CallbackQuery where
  code : Option String
  state : Option String
  error : Option String
  errorDescription : Option String

/-- What the browser is told: `redirectWithError(request, uri, msg)`
(with `uri = none` meaning the generic `/connect/success` status page)
or the success redirect (`status=success&provider=...` on the stored
redirect target, else the success page). -/
inductive CallbackResult where
  | redirectError (target : Option String) (message : String)
  | redirectSuccess (target : Option String) (providerKey : String)
deriving DecidableEq, Repr

/-- The session `select ... where state = ? and status = 'pending'
limit 1` of the callback handler. -/
def sessionLookup (st : String) (ss : List ConnectSession) : Option ConnectSession :=
  ss.find? (fun s => s.state == st && s.status == .pending)

/-- `update connect_sessions set status = ? where id = ?`. -/
def markSession (ss : List ConnectSession) (sid : Nat) (st : SessionStatus) :
    List ConnectSession :=
  ss.map fun s => if s.id = sid then { s with status := st } else s

/-- `if (tokenResponse.expires_in) Date.now() + expires_in * 1000`:
truthiness of the number, then relative-to-absolute conversion. -/
def tokenExpiryFrom (expiresIn : Option Nat) (now : Nat) : Option Nat :=
  if jsTruthyN expiresIn then some (now + (expiresIn.getD 0) * 1000) else none

/-- Lines 98–134 of callback/route.ts: the connection upsert.  If a row
for (providerKey, connectionId) exists the matched row (by id) is
updated in place — including `refreshTokenEnc`, which is whatever the
new response produced (possibly `none`); otherwise a new row is
inserted (`freshId` stands for the generated uuid, `now` for the
`defaultNow()` timestamps). -/
def upsertConnection (cs : List Connection) (pk cid : String)
    (accessTokenEnc : String) (refreshTokenEnc : Option String)
    (tokenExpiresAt : Option Nat) (scopes : Option String)
    (rawCredentials : String) (now freshId : Nat) : List Connection :=
  match cs.find? (fun c => c.providerKey == pk && c.connectionId == cid) with
  | some existing =>
      cs.map fun c =>
        if c.id = existing.id then
          { c with
            accessTokenEnc := accessTokenEnc
            refreshTokenEnc := refreshTokenEnc
            tokenExpiresAt := tokenExpiresAt
            scopes := scopes
            rawCredentials := some rawCredentials
            updatedAt := now }
        else c
  | none =>
      cs ++ [{ id := freshId
               providerKey := pk
               connectionId := cid
               accessTokenEnc := accessTokenEnc
               refreshTokenEnc := refreshTokenEnc
               tokenExpiresAt := tokenExpiresAt
               scopes := scopes
               rawCredentials := some rawCredentials
               metadata := none
               createdAt := now
               updatedAt := now }]

/-- GET /api/connect/callback.  Parameters beyond the request and the
stores are the run's oracles: `resolve` is `resolveProvider` (registry +
credentials lookup), `exchResp` the token endpoint's HTTP response,
`parse` the body parser, `enc` the vault's `encrypt` for this run's
nonces, `serialize` is `JSON.stringify`, `now` is `Date.now()` and
`freshId` the uuid drawn for an inserted connection row.  Returns the
redirect plus the updated session and connection tables. -/
def callbackGET (q : CallbackQuery) (ss : List ConnectSession)
    (cs : List Connection) (resolve : String → Option ResolvedProvider)
    (exchResp : HttpResponse) (parse : String → TokenResponse)
    (enc : String → String) (serialize : TokenResponse → String)
    (now freshId : Nat) :
    CallbackResult × List ConnectSession × List Connection :=
  if jsTruthyS q.error then
    (.redirectError none
      (if jsTruthyS q.errorDescription then q.errorDescription.getD ""
       else q.error.getD ""), ss, cs)
  else if ¬ jsTruthyS q.code ∨ ¬ jsTruthyS q.state then
    (.redirectError none "Missing code or state parameter", ss, cs)
  else
    match sessionLookup (q.state.getD "") ss with
    | none => (.redirectError none "Invalid or expired session", ss, cs)
    | some session =>
        if now > session.expiresAt then
          (.redirectError session.redirectUri "Session expired",
           markSession ss session.id .expired, cs)
        else
          match resolve session.providerKey with
          | none =>
              (.redirectError session.redirectUri "Provider not configured", ss, cs)
          | some resolved =>
              match exchangeCodeForTokens exchResp parse with
              | .error msg => (.redirectError none msg, ss, cs)
              | .ok tr =>
                  let cs' := upsertConnection cs session.providerKey
                    session.connectionId (enc tr.access_token)
                    (if jsTruthyS tr.refresh_token then
                       some (enc (tr.refresh_token.getD "")) else none)
                    (tokenExpiryFrom tr.expires_in now)
                    (some (tr.scope.getD resolved.scopes))
                    (enc (serialize tr)) now freshId
                  (.redirectSuccess session.redirectUri session.providerKey,
                   markSession ss session.id .completed, cs')

/- ─────────────────────────  Token Resolver route  ──────────────────────
   From the GET /api/connections/:provider/:connectionId/token route. -/

/-- The JSON responses of the token route: 404 connection-not-found,
500 provider-not-configured, the token payload
`{accessToken, expiresAt, refreshed}`, or the outer-catch 500. -/
inductive TokenRouteResult where
  | notFound
  | providerNotConfigured
  | token (accessToken : String) (expiresAt : Option Nat) (refreshed : Bool)
  | internalError
deriving DecidableEq, Repr

/-- The token route's expiry test:
`connection.tokenExpiresAt && new Date() >= connection.tokenExpiresAt`
(a `Date` is always truthy, so truthiness is just presence). -/
def tokenIsExpired (e : Option Nat) (now : Nat) : Bool :=
  match e with
  | none => false
  | some t => decide (now ≥ t)

/-- The refresh-success `update connections set ... where id = ?` of the
token route: exactly accessTokenEnc, refreshTokenEnc, tokenExpiresAt,
rawCredentials and updatedAt are written on the matched rows. -/
def refreshApply (cs : List Connection) (cid0 : Nat) (accessTokenEnc : String)
    (refreshTokenEnc : Option String) (tokenExpiresAt : Option Nat)
    (rawCredentials : String) (now : Nat) : List Connection :=
  cs.map fun c =>
    if c.id = cid0 then
      { c with
        accessTokenEnc := accessTokenEnc
        refreshTokenEnc := refreshTokenEnc
        tokenExpiresAt := tokenExpiresAt
        rawCredentials := some rawCredentials
        updatedAt := now }
    else c

/-- GET /api/connections/:provider/:connectionId/token.  `dec` is the
vault's `decrypt` (its thrown errors become `Except.error`), `enc` this
run's `encrypt`, `http`/`parse` the refresh network oracles.  The last
component of the result records whether a refresh HTTP request was
performed.  The inner try/catch around the refresh swallows decryption
and refresh failures and falls through to returning the stored token;
a decryption failure of the stored access token escapes to the outer
catch (500 internal error). -/
def tokenGET (pk cid : String) (cs : List Connection)
    (resolve : String → Option ResolvedProvider)
    (http : RefreshHttp) (parse : String → TokenResponse)
    (dec : String → Except Unit String) (enc : String → String)
    (serialize : TokenResponse → String) (now : Nat) :
    TokenRouteResult × List Connection × Bool :=
  match cs.find? (fun c => c.providerKey == pk && c.connectionId == cid) with
  | none => (.notFound, cs, false)
  | some conn =>
      let fallBack : Bool → TokenRouteResult × List Connection × Bool :=
        fun fetched =>
          match dec conn.accessTokenEnc with
          | .error _ => (.internalError, cs, fetched)
          | .ok t => (.token t conn.tokenExpiresAt false, cs, fetched)
      if tokenIsExpired conn.tokenExpiresAt now && jsTruthyS conn.refreshTokenEnc then
        match resolve pk with
        | none => (.providerNotConfigured, cs, false)
        | some resolved =>
            match dec (conn.refreshTokenEnc.getD "") with
            | .error _ => fallBack false
            | .ok _ =>
                match refreshAccessToken resolved.config http parse with
                | (.error _, fetched) => fallBack fetched
                | (.ok tr, fetched) =>
                    let newExpiresAt := tokenExpiryFrom tr.expires_in now
                    let cs' := refreshApply cs conn.id (enc tr.access_token)
                      (if jsTruthyS tr.refresh_token then
                         some (enc (tr.refresh_token.getD ""))
                       else conn.refreshTokenEnc)
                      newExpiresAt (enc (serialize tr)) now
                    (.token tr.access_token newExpiresAt true, cs', fetched)
      else
        fallBack false

/-- Number of `connections` rows for one (providerKey, connectionId)
pair. -/
def countKey (cs : List Connection) (pk cid : String) : Nat :=
  cs.countP (fun c => c.providerKey == pk && c.connectionId == cid)

deriving instance DecidableEq for Except

/- ─────────────────────  Lemmas: URL parameter maps  ──────────────────── -/

theorem lookupParam_nil (k : String) : lookupParam [] k = none := rfl

theorem lookupParam_cons (p : String × String) (ps : List (String × String))
    (k : String) :
    lookupParam (p :: ps) k = if p.1 = k then some p.2 else lookupParam ps k := rfl

theorem setParam_cons (p : String × String) (ps : List (String × String))
    (k v : String) :
    setParam (p :: ps) k v =
      if p.1 = k then (k, v) :: ps.filter (fun q => q.1 ≠ k)
      else p :: setParam ps k v := rfl

theorem lookupParam_filter_ne (ps : List (String × String)) (k k' : String)
    (h : k' ≠ k) :
    lookupParam (ps.filter (fun q => q.1 ≠ k)) k' = lookupParam ps k' := by
  induction ps with
  | nil => rfl
  | cons p ps ih =>
      by_cases hp : p.1 = k
      · have hp' : ¬ p.1 = k' := fun hh => h (hh ▸ hp)
        have hf : (p :: ps).filter (fun q => q.1 ≠ k) =
            ps.filter (fun q => q.1 ≠ k) := by
          simp [List.filter_cons, hp]
        rw [hf, ih, lookupParam_cons, if_neg hp']
      · have hf : (p :: ps).filter (fun q => q.1 ≠ k) =
            p :: ps.filter (fun q => q.1 ≠ k) := by
          simp [List.filter_cons, hp]
        rw [hf, lookupParam_cons, lookupParam_cons, ih]

theorem lookupParam_setParam_self (ps : List (String × String)) (k v : String) :
    lookupParam (setParam ps k v) k = some v := by
  induction ps with
  | nil => simp [setParam, lookupParam]
  | cons p ps ih =>
      rw [setParam_cons]
      by_cases hp : p.1 = k
      · rw [if_pos hp, lookupParam_cons, if_pos rfl]
      · rw [if_neg hp, lookupParam_cons, if_neg hp, ih]

theorem lookupParam_setParam_ne (ps : List (String × String)) (k v k' : String)
    (h : k' ≠ k) :
    lookupParam (setParam ps k v) k' = lookupParam ps k' := by
  induction ps with
  | nil =>
      rw [show setParam [] k v = [(k, v)] from rfl, lookupParam_cons,
        if_neg (Ne.symm h)]
  | cons p ps ih =>
      rw [setParam_cons]
      by_cases hp : p.1 = k
      · have hp' : ¬ p.1 = k' := fun hh => h (hh ▸ hp)
        rw [if_pos hp, lookupParam_cons, if_neg (Ne.symm h),
          lookupParam_filter_ne ps k k' h, lookupParam_cons, if_neg hp']
      · rw [if_neg hp, lookupParam_cons, lookupParam_cons, ih]

/-- Applying the extra descriptor parameters with `URLSearchParams.set`
leaves every key they do not mention unchanged. -/
theorem lookupParam_applyAll_notMem (l : List (String × String))
    (u : List (String × String)) (k : String) (h : k ∉ l.map Prod.fst) :
    lookupParam (l.foldl (fun ps kv => setParam ps kv.1 kv.2) u) k =
      lookupParam u k := by
  induction l generalizing u with
  | nil => rfl
  | cons kv l ih =>
      simp only [List.map_cons, List.mem_cons] at h
      push_neg at h
      simp only [List.foldl_cons]
      rw [ih _ h.2]
      exact lookupParam_setParam_ne u kv.1 kv.2 k h.1

/-- Applying the extra descriptor parameters gives every key they
mention its descriptor value (keys of a JS object are unique). -/
theorem lookupParam_applyAll_mem (l : List (String × String))
    (u : List (String × String)) (k v : String)
    (hnd : (l.map Prod.fst).Nodup) (hmem : (k, v) ∈ l) :
    lookupParam (l.foldl (fun ps kv => setParam ps kv.1 kv.2) u) k = some v := by
  induction l generalizing u with
  | nil => cases hmem
  | cons kv l ih =>
      simp only [List.map_cons, List.nodup_cons] at hnd
      simp only [List.foldl_cons]
      rcases List.mem_cons.mp hmem with heq | htail
      · subst heq
        rw [lookupParam_applyAll_notMem _ _ _ hnd.1]
        exact lookupParam_setParam_self _ _ _
      · exact ih _ hnd.2 htail

theorem lookupParam_mem (l : List (String × String)) (k v : String)
    (h : lookupParam l k = some v) : (k, v) ∈ l := by
  induction l with
  | nil => cases h
  | cons p ps ih =>
      obtain ⟨a, b⟩ := p
      rw [lookupParam_cons] at h
      dsimp only at h
      by_cases hp : a = k
      · subst hp
        rw [if_pos rfl] at h
        cases h
        exact List.mem_cons_self _ _
      · rw [if_neg hp] at h
        exact List.mem_cons_of_mem _ (ih h)

theorem lookupParam_eq_none_notMem (l : List (String × String)) (k : String)
    (h : lookupParam l k = none) : k ∉ l.map Prod.fst := by
  induction l with
  | nil => simp
  | cons p ps ih =>
      rw [lookupParam_cons] at h
      by_cases hp : p.1 = k
      · rw [if_pos hp] at h
        cases h
      · rw [if_neg hp] at h
        simp only [List.map_cons, List.mem_cons]
        rintro (hk | hk)
        · exact hp hk.symm
        · exact ih h hk

/-- The `response_type` query parameter of the authorization URL is the
descriptor's extra-parameter value when one is defined (including the
empty string), and `code` otherwise. -/
theorem buildAuthorizationUrl_response_type (provider : ProviderConfig)
    (clientId redirectUri state : String) (scopes codeChallenge : Option String)
    (base : List (String × String))
    (hnd : (provider.authorizationParams.map Prod.fst).Nodup) :
    lookupParam
      (buildAuthorizationUrl provider clientId redirectUri state scopes
        codeChallenge base) "response_type" =
    some ((lookupParam provider.authorizationParams "response_type").getD "code") := by
  simp only [buildAuthorizationUrl]
  rcases hrt : lookupParam provider.authorizationParams "response_type" with _ | v
  · have hnm : "response_type" ∉ provider.authorizationParams.map Prod.fst :=
      lookupParam_eq_none_notMem _ _ hrt
    rw [lookupParam_applyAll_notMem _ _ _ hnm, Option.getD_none]
    simp only [show jsTruthyS (none : Option String) = false from rfl,
      Bool.false_eq_true, if_false]
    by_cases hpk : provider.pkce = true ∧ jsTruthyS codeChallenge = true
    · rw [if_pos hpk,
        lookupParam_setParam_ne _ _ _ _ (by decide :
          ("response_type" : String) ≠ "code_challenge_method"),
        lookupParam_setParam_ne _ _ _ _ (by decide :
          ("response_type" : String) ≠ "code_challenge"),
        lookupParam_setParam_self]
    · rw [if_neg hpk, lookupParam_setParam_self]
  · have hmem : ("response_type", v) ∈ provider.authorizationParams :=
      lookupParam_mem _ _ _ hrt
    rw [lookupParam_applyAll_mem _ _ _ _ hnd hmem, Option.getD_some]

/- ─────────────────────────────  Claim C1  ────────────────────────────── -/

theorem gcmMask_length (c : GCMCipher) (iv : List Nat) (i : Nat)
    (data : List Nat) : (gcmMask c iv i data).length = data.length := by
  induction data generalizing i with
  | nil => rfl
  | cons b bs ih => simp [gcmMask, ih]

theorem gcmMask_gcmMask (c : GCMCipher) (iv : List Nat) (i : Nat)
    (data : List Nat) : gcmMask c iv i (gcmMask c iv i data) = data := by
  induction data generalizing i with
  | nil => rfl
  | cons b bs ih => simp [gcmMask, ih, Nat.xor_cancel_right]

theorem encrypt_length (c : GCMCipher) (iv pt : List Nat)
    (hiv : iv.length = 12) : (encrypt c iv pt).length = 28 + pt.length := by
  simp [encrypt, hiv, c.tagLen, gcmMask_length]
  omega

/-- Round trip for every NONEMPTY plaintext: for a 12-byte nonce,
`decrypt` of `encrypt` passes the length guard (the packed payload is
`29` bytes or longer), the unpacked tag matches, and unmasking returns
the plaintext. -/
theorem decrypt_encrypt_nonempty (c : GCMCipher) (iv pt : List Nat)
    (hiv : iv.length = 12) (hpt : pt ≠ []) :
    decrypt c (encrypt c iv pt) = .ok pt := by
  have hlen : (encrypt c iv pt).length = 28 + pt.length := encrypt_length c iv pt hiv
  have hpos : 0 < pt.length := List.length_pos.mpr hpt
  have hguard : ¬ (encrypt c iv pt).length < 12 + 16 + 1 := by omega
  have htake : (encrypt c iv pt).take 12 = iv := by
    simp only [encrypt]
    rw [List.append_assoc, ← hiv]
    exact List.take_left iv _
  have hdropTag : ((encrypt c iv pt).drop 12).take 16 =
      c.tagOf iv (gcmMask c iv 0 pt) := by
    simp only [encrypt]
    rw [List.append_assoc, ← hiv, List.drop_left,
      ← c.tagLen iv (gcmMask c iv 0 pt)]
    exact List.take_left _ _
  have hdropCt : (encrypt c iv pt).drop (12 + 16) = gcmMask c iv 0 pt := by
    simp only [encrypt]
    rw [show (12 : ℕ) + 16 = (iv ++ c.tagOf iv (gcmMask c iv 0 pt)).length by
      rw [List.length_append, hiv, c.tagLen]]
    exact List.drop_left _ _
  rw [decrypt, if_neg hguard, htake, hdropTag, hdropCt, if_pos rfl,
    gcmMask_gcmMask]

/-- C1: the code contradicts the claim at the empty string.  The packed
payload `encrypt` produces for the empty plaintext is exactly 28 bytes
(iv 12 + tag 16 + empty ciphertext), yet `decrypt`'s length guard is
`packed.length < IV_LENGTH + TAG_LENGTH + 1 = 29`, so the 28-byte
payload is rejected as too short and `decrypt(encrypt(""))` fails
instead of returning `""`.  A one-byte plaintext round-trips fine. -/
theorem claim_C1_empty_plaintext_rejected :
    (encrypt zeroCipher (List.replicate 12 0) []).length = 28 ∧
    decrypt zeroCipher (encrypt zeroCipher (List.replicate 12 0) []) =
      .error .tooShort ∧
    decrypt zeroCipher (encrypt zeroCipher (List.replicate 12 0) [104]) =
      .ok [104] := by
  refine ⟨by decide, by decide, by decide⟩

/- ─────────────────────────────  Claim C7  ────────────────────────────── -/

/-- C7, counterexample: the repository's own `linear` descriptor defines
`response_type` (as `code`) in its extra parameters, yet the final URL
still carries `response_type=code` — so `response_type=code` is NOT
present "exactly when the descriptor's extra authorization parameters
do not define response_type". -/
theorem claim_C7_counterexample :
    ¬ ((lookupParam
          (buildAuthorizationUrl linear "client-1" "https://broker/cb"
            "state-1" none none []) "response_type" = some "code") ↔
        lookupParam linear.authorizationParams "response_type" = none) := by
  intro h
  have h1 : lookupParam
      (buildAuthorizationUrl linear "client-1" "https://broker/cb"
        "state-1" none none []) "response_type" = some "code" := by decide
  have h2 := h.mp h1
  exact absurd h2 (by decide)

/-- C7, amended: the final URL's `response_type` value is the
descriptor's extra-parameter value when one is defined and `code`
otherwise — so `response_type=code` is present exactly when the extra
parameters do not define `response_type` or define it as `code` — and
every key defined in the extra parameters carries the descriptor's
value in the final URL, overriding any engine-computed value. -/
theorem claim_C7_amended :
    (∀ (provider : ProviderConfig) (clientId redirectUri state : String)
       (scopes codeChallenge : Option String) (base : List (String × String)),
       (provider.authorizationParams.map Prod.fst).Nodup →
       lookupParam (buildAuthorizationUrl provider clientId redirectUri state
         scopes codeChallenge base) "response_type" =
         some ((lookupParam provider.authorizationParams "response_type").getD
           "code")) ∧
    (∀ (provider : ProviderConfig) (clientId redirectUri state : String)
       (scopes codeChallenge : Option String) (base : List (String × String))
       (k v : String),
       (provider.authorizationParams.map Prod.fst).Nodup →
       (k, v) ∈ provider.authorizationParams →
       lookupParam (buildAuthorizationUrl provider clientId redirectUri state
         scopes codeChallenge base) k = some v) ∧
    (∀ (provider : ProviderConfig) (clientId redirectUri state : String)
       (scopes codeChallenge : Option String) (base : List (String × String)),
       (provider.authorizationParams.map Prod.fst).Nodup →
       (lookupParam (buildAuthorizationUrl provider clientId redirectUri state
          scopes codeChallenge base) "response_type" = some "code" ↔
        (lookupParam provider.authorizationParams "response_type" = none ∨
         lookupParam provider.authorizationParams "response_type" =
           some "code"))) := by
  refine ⟨fun p a b c d e f h => buildAuthorizationUrl_response_type p a b c d e f h,
    fun p a b c d e f k v hnd hmem => ?_, fun p a b c d e f hnd => ?_⟩
  · simp only [buildAuthorizationUrl]
    exact lookupParam_applyAll_mem _ _ _ _ hnd hmem
  · rw [buildAuthorizationUrl_response_type p a b c d e f hnd]
    rcases lookupParam p.authorizationParams "response_type" with _ | v
    · simp
    · simp

/-- A descriptor whose extra authorization parameters override the
engine-computed `client_id`. -/
def ovProvider : ProviderConfig where
  key := "acme2"
  name := "Acme2"
  authorizationUrl := "https://acme2.example/authorize"
  tokenUrl := "https://acme2.example/token"
  refreshUrl := none
  defaultScopes := []
  scopeSeparator := " "
  tokenResponseType := .json
  authorizationParams := [("client_id", "override"), ("prompt", "consent")]
  pkce := false
  tokenAuthMethod := .body

/-- C7, witness: concrete instantiations of the parts of the amended
claim at the repository's `linear` descriptor (extras define
`response_type`), the `github` descriptor (no extras), and the
`ovProvider` descriptor (extras override the engine-computed
`client_id`). -/
theorem claim_C7_witness :
    lookupParam
      (buildAuthorizationUrl linear "client-1" "https://broker/cb" "state-1"
        none none []) "response_type" = some "code" ∧
    lookupParam
      (buildAuthorizationUrl github "client-1" "https://broker/cb" "state-1"
        (some "repo") none []) "response_type" = some "code" ∧
    lookupParam
      (buildAuthorizationUrl ovProvider "client-1" "https://broker/cb" "state-1"
        none none []) "client_id" = some "override" := by
  refine ⟨?_, ?_, ?_⟩
  · exact (claim_C7_amended.1 linear "client-1" "https://broker/cb" "state-1"
      none none [] (by decide)).trans (by decide)
  · exact (claim_C7_amended.1 github "client-1" "https://broker/cb" "state-1"
      (some "repo") none [] (by decide)).trans (by decide)
  · exact claim_C7_amended.2.1 ovProvider "client-1" "https://broker/cb" "state-1"
      none none [] "client_id" "override" (by decide) (by decide)

/- ────────────────────  Callback handler branch lemmas  ───────────────── -/

theorem callbackGET_expired (q : CallbackQuery) (ss : List ConnectSession)
    (cs : List Connection) (resolve : String → Option ResolvedProvider)
    (exchResp : HttpResponse) (parse : String → TokenResponse)
    (enc : String → String) (serialize : TokenResponse → String)
    (now freshId : Nat) (session : ConnectSession)
    (hqe : jsTruthyS q.error = false) (hqc : jsTruthyS q.code = true)
    (hqs : jsTruthyS q.state = true)
    (hfind : sessionLookup (q.state.getD "") ss = some session)
    (hexp : now > session.expiresAt) :
    callbackGET q ss cs resolve exchResp parse enc serialize now freshId =
      (.redirectError session.redirectUri "Session expired",
       markSession ss session.id .expired, cs) := by
  simp only [callbackGET, hqe, hqc, hqs, hfind, hexp]
  simp

theorem callbackGET_noProvider (q : CallbackQuery) (ss : List ConnectSession)
    (cs : List Connection) (resolve : String → Option ResolvedProvider)
    (exchResp : HttpResponse) (parse : String → TokenResponse)
    (enc : String → String) (serialize : TokenResponse → String)
    (now freshId : Nat) (session : ConnectSession)
    (hqe : jsTruthyS q.error = false) (hqc : jsTruthyS q.code = true)
    (hqs : jsTruthyS q.state = true)
    (hfind : sessionLookup (q.state.getD "") ss = some session)
    (hexp : ¬ now > session.expiresAt)
    (hres : resolve session.providerKey = none) :
    callbackGET q ss cs resolve exchResp parse enc serialize now freshId =
      (.redirectError session.redirectUri "Provider not configured", ss, cs) := by
  simp only [callbackGET, hqe, hqc, hqs, hfind, hexp, hres]
  simp

theorem callbackGET_exchangeError (q : CallbackQuery) (ss : List ConnectSession)
    (cs : List Connection) (resolve : String → Option ResolvedProvider)
    (exchResp : HttpResponse) (parse : String → TokenResponse)
    (enc : String → String) (serialize : TokenResponse → String)
    (now freshId : Nat) (session : ConnectSession) (r : ResolvedProvider)
    (msg : String)
    (hqe : jsTruthyS q.error = false) (hqc : jsTruthyS q.code = true)
    (hqs : jsTruthyS q.state = true)
    (hfind : sessionLookup (q.state.getD "") ss = some session)
    (hexp : ¬ now > session.expiresAt)
    (hres : resolve session.providerKey = some r)
    (hex : exchangeCodeForTokens exchResp parse = .error msg) :
    callbackGET q ss cs resolve exchResp parse enc serialize now freshId =
      (.redirectError none msg, ss, cs) := by
  simp only [callbackGET, hqe, hqc, hqs, hfind, hexp, hres, hex]
  simp

theorem callbackGET_success (q : CallbackQuery) (ss : List ConnectSession)
    (cs : List Connection) (resolve : String → Option ResolvedProvider)
    (exchResp : HttpResponse) (parse : String → TokenResponse)
    (enc : String → String) (serialize : TokenResponse → String)
    (now freshId : Nat) (session : ConnectSession) (r : ResolvedProvider)
    (tr : TokenResponse)
    (hqe : jsTruthyS q.error = false) (hqc : jsTruthyS q.code = true)
    (hqs : jsTruthyS q.state = true)
    (hfind : sessionLookup (q.state.getD "") ss = some session)
    (hexp : ¬ now > session.expiresAt)
    (hres : resolve session.providerKey = some r)
    (hex : exchangeCodeForTokens exchResp parse = .ok tr) :
    callbackGET q ss cs resolve exchResp parse enc serialize now freshId =
      (.redirectSuccess session.redirectUri session.providerKey,
       markSession ss session.id .completed,
       upsertConnection cs session.providerKey session.connectionId
         (enc tr.access_token)
         (if jsTruthyS tr.refresh_token then
            some (enc (tr.refresh_token.getD "")) else none)
         (tokenExpiryFrom tr.expires_in now)
         (some (tr.scope.getD r.scopes))
         (enc (serialize tr)) now freshId) := by
  simp only [callbackGET, hqe, hqc, hqs, hfind, hexp, hres, hex]
  simp

theorem callbackGET_invalidSession (q : CallbackQuery)
    (ss : List ConnectSession) (cs : List Connection)
    (resolve : String → Option ResolvedProvider)
    (exchResp : HttpResponse) (parse : String → TokenResponse)
    (enc : String → String) (serialize : TokenResponse → String)
    (now freshId : Nat)
    (hqe : jsTruthyS q.error = false) (hqc : jsTruthyS q.code = true)
    (hqs : jsTruthyS q.state = true)
    (hfind : sessionLookup (q.state.getD "") ss = none) :
    callbackGET q ss cs resolve exchResp parse enc serialize now freshId =
      (.redirectError none "Invalid or expired session", ss, cs) := by
  simp only [callbackGET, hqe, hqc, hqs, hfind]
  simp

/- ──────────────────────  Token route branch lemmas  ──────────────────── -/

theorem tokenGET_notFound (pk cid : String) (cs : List Connection)
    (resolve : String → Option ResolvedProvider) (http : RefreshHttp)
    (parse : String → TokenResponse) (dec : String → Except Unit String)
    (enc : String → String) (serialize : TokenResponse → String) (now : Nat)
    (hfind : cs.find? (fun c => c.providerKey == pk && c.connectionId == cid) =
      none) :
    tokenGET pk cid cs resolve http parse dec enc serialize now =
      (.notFound, cs, false) := by
  simp only [tokenGET, hfind]

theorem tokenGET_stale (pk cid : String) (cs : List Connection)
    (resolve : String → Option ResolvedProvider) (http : RefreshHttp)
    (parse : String → TokenResponse) (dec : String → Except Unit String)
    (enc : String → String) (serialize : TokenResponse → String) (now : Nat)
    (conn : Connection) (t : String)
    (hfind : cs.find? (fun c => c.providerKey == pk && c.connectionId == cid) =
      some conn)
    (hcond : (tokenIsExpired conn.tokenExpiresAt now &&
      jsTruthyS conn.refreshTokenEnc) = false)
    (hdeca : dec conn.accessTokenEnc = .ok t) :
    tokenGET pk cid cs resolve http parse dec enc serialize now =
      (.token t conn.tokenExpiresAt false, cs, false) := by
  simp only [tokenGET, hfind, hcond, hdeca]
  simp

theorem tokenGET_notConfigured (pk cid : String) (cs : List Connection)
    (resolve : String → Option ResolvedProvider) (http : RefreshHttp)
    (parse : String → TokenResponse) (dec : String → Except Unit String)
    (enc : String → String) (serialize : TokenResponse → String) (now : Nat)
    (conn : Connection)
    (hfind : cs.find? (fun c => c.providerKey == pk && c.connectionId == cid) =
      some conn)
    (hcond : (tokenIsExpired conn.tokenExpiresAt now &&
      jsTruthyS conn.refreshTokenEnc) = true)
    (hres : resolve pk = none) :
    tokenGET pk cid cs resolve http parse dec enc serialize now =
      (.providerNotConfigured, cs, false) := by
  simp only [tokenGET, hfind, hcond, hres]
  simp

theorem tokenGET_refreshDecFail (pk cid : String) (cs : List Connection)
    (resolve : String → Option ResolvedProvider) (http : RefreshHttp)
    (parse : String → TokenResponse) (dec : String → Except Unit String)
    (enc : String → String) (serialize : TokenResponse → String) (now : Nat)
    (conn : Connection) (r : ResolvedProvider) (t : String)
    (hfind : cs.find? (fun c => c.providerKey == pk && c.connectionId == cid) =
      some conn)
    (hcond : (tokenIsExpired conn.tokenExpiresAt now &&
      jsTruthyS conn.refreshTokenEnc) = true)
    (hres : resolve pk = some r)
    (hdecr : dec (conn.refreshTokenEnc.getD "") = .error ())
    (hdeca : dec conn.accessTokenEnc = .ok t) :
    tokenGET pk cid cs resolve http parse dec enc serialize now =
      (.token t conn.tokenExpiresAt false, cs, false) := by
  simp only [tokenGET, hfind, hcond, hres, hdecr, hdeca]
  simp

theorem tokenGET_refreshError (pk cid : String) (cs : List Connection)
    (resolve : String → Option ResolvedProvider) (http : RefreshHttp)
    (parse : String → TokenResponse) (dec : String → Except Unit String)
    (enc : String → String) (serialize : TokenResponse → String) (now : Nat)
    (conn : Connection) (r : ResolvedProvider) (rt t m : String)
    (fetched : Bool)
    (hfind : cs.find? (fun c => c.providerKey == pk && c.connectionId == cid) =
      some conn)
    (hcond : (tokenIsExpired conn.tokenExpiresAt now &&
      jsTruthyS conn.refreshTokenEnc) = true)
    (hres : resolve pk = some r)
    (hdecr : dec (conn.refreshTokenEnc.getD "") = .ok rt)
    (href : refreshAccessToken r.config http parse = (.error m, fetched))
    (hdeca : dec conn.accessTokenEnc = .ok t) :
    tokenGET pk cid cs resolve http parse dec enc serialize now =
      (.token t conn.tokenExpiresAt false, cs, fetched) := by
  simp only [tokenGET, hfind, hcond, hres, hdecr, href, hdeca]
  simp

theorem tokenGET_refreshSuccess (pk cid : String) (cs : List Connection)
    (resolve : String → Option ResolvedProvider) (http : RefreshHttp)
    (parse : String → TokenResponse) (dec : String → Except Unit String)
    (enc : String → String) (serialize : TokenResponse → String) (now : Nat)
    (conn : Connection) (r : ResolvedProvider) (rt : String)
    (tr : TokenResponse) (fetched : Bool)
    (hfind : cs.find? (fun c => c.providerKey == pk && c.connectionId == cid) =
      some conn)
    (hcond : (tokenIsExpired conn.tokenExpiresAt now &&
      jsTruthyS conn.refreshTokenEnc) = true)
    (hres : resolve pk = some r)
    (hdecr : dec (conn.refreshTokenEnc.getD "") = .ok rt)
    (href : refreshAccessToken r.config http parse = (.ok tr, fetched)) :
    tokenGET pk cid cs resolve http parse dec enc serialize now =
      (.token tr.access_token (tokenExpiryFrom tr.expires_in now) true,
       refreshApply cs conn.id (enc tr.access_token)
         (if jsTruthyS tr.refresh_token then
            some (enc (tr.refresh_token.getD ""))
          else conn.refreshTokenEnc)
         (tokenExpiryFrom tr.expires_in now) (enc (serialize tr)) now,
       fetched) := by
  simp only [tokenGET, hfind, hcond, hres, hdecr, href]
  simp

/- ─────────────────────────────  Claim C8  ────────────────────────────── -/

/-- C8: a session persisted by POST /api/connect/sessions carries an
absolute expiry of exactly 10 minutes after creation; a callback with
its state at creation + 9m59s passes the expiry check (it proceeds to
the provider-resolution stage), while at creation + 10m01s it is
rejected as expired and the session's status is written to `expired`. -/
theorem claim_C8 (sid freshId T : Nat) (token pk cid st : String)
    (cv ru : Option String) (cs : List Connection)
    (exchResp : HttpResponse) (parse : String → TokenResponse)
    (enc : String → String) (serialize : TokenResponse → String)
    (hst : st ≠ "") :
    (newConnectSession sid token pk cid st cv ru T).expiresAt =
      T + 10 * 60 * 1000 ∧
    callbackGET ⟨some "abc", some st, none, none⟩
      [newConnectSession sid token pk cid st cv ru T] cs (fun _ => none)
      exchResp parse enc serialize (T + 599000) freshId =
      (.redirectError ru "Provider not configured",
       [newConnectSession sid token pk cid st cv ru T], cs) ∧
    callbackGET ⟨some "abc", some st, none, none⟩
      [newConnectSession sid token pk cid st cv ru T] cs (fun _ => none)
      exchResp parse enc serialize (T + 601000) freshId =
      (.redirectError ru "Session expired",
       [{ newConnectSession sid token pk cid st cv ru T with
            status := .expired }], cs) := by
  have hfind : sessionLookup ((some st).getD "") [newConnectSession sid token
      pk cid st cv ru T] = some (newConnectSession sid token pk cid st cv ru T) := by
    simp [sessionLookup, newConnectSession, List.find?]
  have hqs : jsTruthyS (some st) = true := by
    simp [jsTruthyS, hst]
  refine ⟨rfl, ?_, ?_⟩
  · rw [callbackGET_noProvider ⟨some "abc", some st, none, none⟩
      [newConnectSession sid token pk cid st cv ru T] cs (fun _ => none)
      exchResp parse enc serialize (T + 599000) freshId
      (newConnectSession sid token pk cid st cv ru T) rfl rfl hqs hfind
      (by simp [newConnectSession, sessionExpiresAt]) rfl]
    rfl
  · rw [callbackGET_expired ⟨some "abc", some st, none, none⟩
      [newConnectSession sid token pk cid st cv ru T] cs (fun _ => none)
      exchResp parse enc serialize (T + 601000) freshId
      (newConnectSession sid token pk cid st cv ru T) rfl rfl hqs hfind
      (by simp [newConnectSession, sessionExpiresAt])]
    simp [markSession, newConnectSession]

/-- C8, witness: the amended-free claim instantiated at a concrete
session and concrete oracles. -/
theorem claim_C8_witness :
    (newConnectSession 1 "tok-1" "github" "user-1" "state-1" none
      (some "https://app.example/cb") 0).expiresAt = 600000 ∧
    callbackGET ⟨some "abc", some "state-1", none, none⟩
      [newConnectSession 1 "tok-1" "github" "user-1" "state-1" none
        (some "https://app.example/cb") 0] [] (fun _ => none)
      ⟨true, 200, ""⟩ (fun _ => ⟨"", none, none, none, ""⟩) id (fun _ => "")
      599000 0 =
      (.redirectError (some "https://app.example/cb") "Provider not configured",
       [newConnectSession 1 "tok-1" "github" "user-1" "state-1" none
         (some "https://app.example/cb") 0], []) := by
  have h := claim_C8 1 0 0 "tok-1" "github" "user-1" "state-1" none
    (some "https://app.example/cb") [] ⟨true, 200, ""⟩
    (fun _ => ⟨"", none, none, none, ""⟩) id (fun _ => "") (by decide)
  exact ⟨h.1, h.2.1⟩

/- ─────────────────────────────  Claim C9  ────────────────────────────── -/

/-- Whatever the callback does to the session table, it either leaves it
unchanged or writes `expired`/`completed` on the session (by id) that a
pending-status lookup by state returned. -/
theorem callbackGET_sessions_shape (q : CallbackQuery)
    (ss : List ConnectSession) (cs : List Connection)
    (resolve : String → Option ResolvedProvider) (exchResp : HttpResponse)
    (parse : String → TokenResponse) (enc : String → String)
    (serialize : TokenResponse → String) (now freshId : Nat) :
    (callbackGET q ss cs resolve exchResp parse enc serialize now freshId).2.1 =
      ss ∨
    ∃ s1, sessionLookup (q.state.getD "") ss = some s1 ∧
      ((callbackGET q ss cs resolve exchResp parse enc serialize now
          freshId).2.1 = markSession ss s1.id .expired ∨
       (callbackGET q ss cs resolve exchResp parse enc serialize now
          freshId).2.1 = markSession ss s1.id .completed) := by
  simp only [callbackGET]
  split
  · left; rfl
  · split
    · left; rfl
    · split
      · left; rfl
      · rename_i s1 heq
        split
        · right; exact ⟨s1, heq, Or.inl rfl⟩
        · split
          · left; rfl
          · split
            · left; rfl
            · right; exact ⟨s1, heq, Or.inr rfl⟩

/-- A completed session row survives any callback run unchanged
(session ids are unique, and the handler only ever writes to a session
the pending-only lookup returned). -/
theorem callbackGET_preserves_completed (q : CallbackQuery)
    (ss : List ConnectSession) (cs : List Connection)
    (resolve : String → Option ResolvedProvider) (exchResp : HttpResponse)
    (parse : String → TokenResponse) (enc : String → String)
    (serialize : TokenResponse → String) (now freshId : Nat)
    (s0 : ConnectSession) (hids : (ss.map ConnectSession.id).Nodup)
    (hs0 : s0 ∈ ss) (hs0c : s0.status = .completed) :
    s0 ∈ (callbackGET q ss cs resolve exchResp parse enc serialize now
      freshId).2.1 := by
  rcases callbackGET_sessions_shape q ss cs resolve exchResp parse enc
    serialize now freshId with heq | ⟨s1, hlk, heq⟩
  · rw [heq]; exact hs0
  · have hmem1 : s1 ∈ ss := List.mem_of_find?_eq_some hlk
    have hpred := List.find?_some hlk
    have hpend : s1.status = .pending := by
      have := (Bool.and_eq_true _ _).mp hpred |>.2
      simpa using this
    have hne : s0.id ≠ s1.id := by
      intro hid
      have : s0 = s1 :=
        List.inj_on_of_nodup_map hids hs0 hmem1 hid
      rw [this, hpend] at hs0c
      cases hs0c
    have hmark : ∀ st', s0 ∈ markSession ss s1.id st' := by
      intro st'
      have : (fun s => if s.id = s1.id then { s with status := st' } else s) s0
          = s0 := by
        simp [hne]
      exact this ▸ List.mem_map_of_mem _ hs0
    rcases heq with h | h
    · rw [h]; exact hmark _
    · rw [h]; exact hmark _

/-- C9: once a session's status is `completed`, a callback replaying its
state value is never matched again: the pending-only lookup fails, the
handler answers with the invalid-session redirect and changes nothing;
and no callback run — whatever its query and oracles — ever moves a
completed session out of `completed` (the row survives unchanged in the
session table). -/
theorem claim_C9 (q : CallbackQuery) (ss : List ConnectSession)
    (cs : List Connection) (resolve : String → Option ResolvedProvider)
    (exchResp : HttpResponse) (parse : String → TokenResponse)
    (enc : String → String) (serialize : TokenResponse → String)
    (now freshId : Nat) (st : String) (s0 : ConnectSession)
    (hids : (ss.map ConnectSession.id).Nodup)
    (hall : ∀ s ∈ ss, s.state = st → s.status = .completed)
    (hqe : jsTruthyS q.error = false) (hqc : jsTruthyS q.code = true)
    (hqst : q.state = some st) (hst : st ≠ "")
    (hs0 : s0 ∈ ss) (hs0c : s0.status = .completed) :
    callbackGET q ss cs resolve exchResp parse enc serialize now freshId =
      (.redirectError none "Invalid or expired session", ss, cs) ∧
    ∀ (q' : CallbackQuery) (resolve' : String → Option ResolvedProvider)
      (exchResp' : HttpResponse) (parse' : String → TokenResponse)
      (enc' : String → String) (serialize' : TokenResponse → String)
      (now' freshId' : Nat),
      s0 ∈ (callbackGET q' ss cs resolve' exchResp' parse' enc' serialize'
        now' freshId').2.1 := by
  constructor
  · have hqs : jsTruthyS q.state = true := by
      rw [hqst]; simp [jsTruthyS, hst]
    have hfind : sessionLookup (q.state.getD "") ss = none := by
      rw [hqst]
      apply List.find?_eq_none.mpr
      intro s hs
      have hcs := hall s hs
      simp only [Bool.and_eq_true, beq_iff_eq]
      rintro ⟨h1, h2⟩
      rw [hcs h1] at h2
      cases h2
    exact callbackGET_invalidSession q ss cs resolve exchResp parse enc
      serialize now freshId hqe hqc hqs hfind
  · intro q' resolve' exchResp' parse' enc' serialize' now' freshId'
    exact callbackGET_preserves_completed q' ss cs resolve' exchResp' parse'
      enc' serialize' now' freshId' s0 hids hs0 hs0c

/-- C9, witness: a one-row table holding a completed session; replaying
its state yields the invalid-session redirect and leaves the row
completed. -/
theorem claim_C9_witness :
    callbackGET ⟨some "abc", some "state-9", none, none⟩
      [{ id := 9, token := "tok-9", providerKey := "github",
         connectionId := "user-9", state := "state-9", codeVerifier := none,
         status := .completed, redirectUri := none, createdAt := 0,
         expiresAt := 600000 }] [] (fun _ => none) ⟨true, 200, ""⟩
      (fun _ => ⟨"", none, none, none, ""⟩) id (fun _ => "") 1000 0 =
      (.redirectError none "Invalid or expired session",
       [{ id := 9, token := "tok-9", providerKey := "github",
          connectionId := "user-9", state := "state-9", codeVerifier := none,
          status := .completed, redirectUri := none, createdAt := 0,
          expiresAt := 600000 }], []) := by
  have h := claim_C9 ⟨some "abc", some "state-9", none, none⟩
    [{ id := 9, token := "tok-9", providerKey := "github",
       connectionId := "user-9", state := "state-9", codeVerifier := none,
       status := .completed, redirectUri := none, createdAt := 0,
       expiresAt := 600000 }] [] (fun _ => none) ⟨true, 200, ""⟩
    (fun _ => ⟨"", none, none, none, ""⟩) id (fun _ => "") 1000 0 "state-9"
    { id := 9, token := "tok-9", providerKey := "github",
      connectionId := "user-9", state := "state-9", codeVerifier := none,
      status := .completed, redirectUri := none, createdAt := 0,
      expiresAt := 600000 }
    (by decide) (by intro s hs h1; simp at hs; rw [hs]) rfl rfl rfl
    (by decide) (by simp) rfl
  exact h.1

/- ──────────────────────────  Claims C4 and C5  ───────────────────────── -/

/-- A pending, unexpired session with a stored caller redirect target. -/
def cbSession : ConnectSession where
  id := 4
  token := "tok-4"
  providerKey := "github"
  connectionId := "user-4"
  state := "state-4"
  codeVerifier := none
  status := .pending
  redirectUri := some "https://app.example/cb"
  createdAt := 0
  expiresAt := 600000

/-- Resolved GitHub credentials for the concrete runs. -/
def cbResolved : ResolvedProvider where
  config := github
  clientId := "cid"
  clientSecret := "sec"
  scopes := "repo"
  enabled := true

/-- A trivial token-response parse oracle for concrete runs. -/
def trivialParse : String → TokenResponse :=
  fun _ => ⟨"", none, none, none, ""⟩

/-- C4, counterexample: two callback runs that differ only in the body
of the provider's non-success token-endpoint response produce different
caller-visible redirects — the upstream body is embedded in the
redirect's error message. -/
theorem claim_C4_counterexample :
    callbackGET ⟨some "abc", some "state-4", none, none⟩ [cbSession] []
        (fun _ => some cbResolved) ⟨false, 400, "upstream-A"⟩ trivialParse id
        (fun _ => "") 1000 0 ≠
      callbackGET ⟨some "abc", some "state-4", none, none⟩ [cbSession] []
        (fun _ => some cbResolved) ⟨false, 400, "upstream-B"⟩ trivialParse id
        (fun _ => "") 1000 0 := by
  decide

/-- C4, amended: when the code exchange receives a non-success HTTP
response, the handler's thrown message — upstream status and body
included — escapes to the top-level catch, which redirects to the
generic status page with that message in the `error` query parameter.
The redirect therefore depends on and contains the upstream status and
body (it does go to the generic page rather than the caller's
redirect target). -/
theorem claim_C4_amended (q : CallbackQuery) (ss : List ConnectSession)
    (cs : List Connection) (resolve : String → Option ResolvedProvider)
    (exchResp : HttpResponse) (parse : String → TokenResponse)
    (enc : String → String) (serialize : TokenResponse → String)
    (now freshId : Nat) (session : ConnectSession) (r : ResolvedProvider)
    (hqe : jsTruthyS q.error = false) (hqc : jsTruthyS q.code = true)
    (hqs : jsTruthyS q.state = true)
    (hfind : sessionLookup (q.state.getD "") ss = some session)
    (hexp : ¬ now > session.expiresAt)
    (hres : resolve session.providerKey = some r)
    (hok : exchResp.ok = false) :
    callbackGET q ss cs resolve exchResp parse enc serialize now freshId =
      (.redirectError none
        ("Token exchange failed (" ++ toString exchResp.status ++ "): " ++
          exchResp.body), ss, cs) := by
  have hex : exchangeCodeForTokens exchResp parse =
      .error ("Token exchange failed (" ++ toString exchResp.status ++ "): " ++
        exchResp.body) := by
    simp [exchangeCodeForTokens, hok]
  exact callbackGET_exchangeError q ss cs resolve exchResp parse enc serialize
    now freshId session r _ hqe hqc hqs hfind hexp hres hex

/-- C4, witness: a concrete exchange-failure run lands on the generic
status page carrying the upstream status and body. -/
theorem claim_C4_witness :
    callbackGET ⟨some "abc", some "state-4", none, none⟩ [cbSession] []
      (fun _ => some cbResolved) ⟨false, 400, "boom"⟩ trivialParse id
      (fun _ => "") 1000 0 =
      (.redirectError none
        ("Token exchange failed (" ++ toString (400 : Nat) ++ "): " ++ "boom"),
       [cbSession], []) := by
  exact claim_C4_amended ⟨some "abc", some "state-4", none, none⟩ [cbSession]
    [] (fun _ => some cbResolved) ⟨false, 400, "boom"⟩ trivialParse id
    (fun _ => "") 1000 0 cbSession cbResolved rfl rfl rfl (by decide)
    (by decide) rfl rfl

/-- C5, counterexample: a failed code exchange — the claim's own example
of a downstream failure — redirects to the generic status page even
though the session stores a caller redirect target, contradicting
"redirects back to the session's stored caller redirectUri ... when one
exists". -/
theorem claim_C5_counterexample :
    (callbackGET ⟨some "abc", some "state-4", none, none⟩ [cbSession] []
        (fun _ => some cbResolved) ⟨false, 400, "bad"⟩ trivialParse id
        (fun _ => "") 1000 0).1 =
      .redirectError none "Token exchange failed (400): bad" ∧
    cbSession.redirectUri = some "https://app.example/cb" := by
  constructor
  · decide
  · rfl

/-- C5, amended: every failure downstream of a successful session
lookup produces a redirect-with-error rather than raising; the failures
the handler detects itself before the exchange (session expired,
provider not configured) target the session's stored redirectUri, while
failures thrown from the code exchange are caught by the top-level
handler and always target the generic status page, regardless of the
stored redirectUri. -/
theorem claim_C5_amended :
    (∀ (q : CallbackQuery) (ss : List ConnectSession) (cs : List Connection)
       (resolve : String → Option ResolvedProvider) (exchResp : HttpResponse)
       (parse : String → TokenResponse) (enc : String → String)
       (serialize : TokenResponse → String) (now freshId : Nat)
       (session : ConnectSession),
       jsTruthyS q.error = false → jsTruthyS q.code = true →
       jsTruthyS q.state = true →
       sessionLookup (q.state.getD "") ss = some session →
       now > session.expiresAt →
       callbackGET q ss cs resolve exchResp parse enc serialize now freshId =
         (.redirectError session.redirectUri "Session expired",
          markSession ss session.id .expired, cs)) ∧
    (∀ (q : CallbackQuery) (ss : List ConnectSession) (cs : List Connection)
       (resolve : String → Option ResolvedProvider) (exchResp : HttpResponse)
       (parse : String → TokenResponse) (enc : String → String)
       (serialize : TokenResponse → String) (now freshId : Nat)
       (session : ConnectSession),
       jsTruthyS q.error = false → jsTruthyS q.code = true →
       jsTruthyS q.state = true →
       sessionLookup (q.state.getD "") ss = some session →
       ¬ now > session.expiresAt →
       resolve session.providerKey = none →
       callbackGET q ss cs resolve exchResp parse enc serialize now freshId =
         (.redirectError session.redirectUri "Provider not configured",
          ss, cs)) ∧
    (∀ (q : CallbackQuery) (ss : List ConnectSession) (cs : List Connection)
       (resolve : String → Option ResolvedProvider) (exchResp : HttpResponse)
       (parse : String → TokenResponse) (enc : String → String)
       (serialize : TokenResponse → String) (now freshId : Nat)
       (session : ConnectSession) (r : ResolvedProvider) (msg : String),
       jsTruthyS q.error = false → jsTruthyS q.code = true →
       jsTruthyS q.state = true →
       sessionLookup (q.state.getD "") ss = some session →
       ¬ now > session.expiresAt →
       resolve session.providerKey = some r →
       exchangeCodeForTokens exchResp parse = .error msg →
       callbackGET q ss cs resolve exchResp parse enc serialize now freshId =
         (.redirectError none msg, ss, cs)) := by
  refine ⟨?_, ?_, ?_⟩
  · intro q ss cs resolve exchResp parse enc serialize now freshId session
      h1 h2 h3 h4 h5
    exact callbackGET_expired q ss cs resolve exchResp parse enc serialize now
      freshId session h1 h2 h3 h4 h5
  · intro q ss cs resolve exchResp parse enc serialize now freshId session
      h1 h2 h3 h4 h5 h6
    exact callbackGET_noProvider q ss cs resolve exchResp parse enc serialize
      now freshId session h1 h2 h3 h4 h5 h6
  · intro q ss cs resolve exchResp parse enc serialize now freshId session r
      msg h1 h2 h3 h4 h5 h6 h7
    exact callbackGET_exchangeError q ss cs resolve exchResp parse enc
      serialize now freshId session r msg h1 h2 h3 h4 h5 h6 h7

/-- C5, witness: each of the three downstream-failure branches at a
concrete run — expiry and provider-not-configured use the stored
redirect target, the exchange failure uses the generic page. -/
theorem claim_C5_witness :
    callbackGET ⟨some "abc", some "state-4", none, none⟩ [cbSession] []
      (fun _ => some cbResolved) ⟨false, 400, "bad"⟩ trivialParse id
      (fun _ => "") 700000 0 =
      (.redirectError (some "https://app.example/cb") "Session expired",
       markSession [cbSession] 4 .expired, []) ∧
    callbackGET ⟨some "abc", some "state-4", none, none⟩ [cbSession] []
      (fun _ => none) ⟨false, 400, "bad"⟩ trivialParse id
      (fun _ => "") 1000 0 =
      (.redirectError (some "https://app.example/cb") "Provider not configured",
       [cbSession], []) ∧
    callbackGET ⟨some "abc", some "state-4", none, none⟩ [cbSession] []
      (fun _ => some cbResolved) ⟨false, 400, "bad"⟩ trivialParse id
      (fun _ => "") 1000 0 =
      (.redirectError none "Token exchange failed (400): bad",
       [cbSession], []) := by
  refine ⟨?_, ?_, ?_⟩
  · exact claim_C5_amended.1 ⟨some "abc", some "state-4", none, none⟩
      [cbSession] [] (fun _ => some cbResolved) ⟨false, 400, "bad"⟩
      trivialParse id (fun _ => "") 700000 0 cbSession rfl rfl rfl rfl
      (by decide)
  · exact claim_C5_amended.2.1 ⟨some "abc", some "state-4", none, none⟩
      [cbSession] [] (fun _ => none) ⟨false, 400, "bad"⟩ trivialParse id
      (fun _ => "") 1000 0 cbSession rfl rfl rfl rfl (by decide) rfl
  · exact claim_C5_amended.2.2 ⟨some "abc", some "state-4", none, none⟩
      [cbSession] [] (fun _ => some cbResolved) ⟨false, 400, "bad"⟩
      trivialParse id (fun _ => "") 1000 0 cbSession cbResolved
      "Token exchange failed (400): bad" rfl rfl rfl rfl (by decide) rfl
      (by decide)

/- ─────────────────────────────  Claim C2  ────────────────────────────── -/

/-- The connection-row key predicate shared by both write paths. -/
theorem countKey_upsertConnection (cs : List Connection) (pk cid : String)
    (accessTokenEnc : String) (refreshTokenEnc : Option String)
    (tokenExpiresAt : Option Nat) (scopes : Option String)
    (rawCredentials : String) (now freshId : Nat)
    (h : countKey cs pk cid ≤ 1) :
    countKey (upsertConnection cs pk cid accessTokenEnc refreshTokenEnc
      tokenExpiresAt scopes rawCredentials now freshId) pk cid = 1 := by
  unfold upsertConnection
  cases hfind : cs.find? (fun c => c.providerKey == pk && c.connectionId == cid) with
  | none =>
      have hz : countKey cs pk cid = 0 :=
        List.countP_eq_zero.mpr (fun a ha => by
          have := List.find?_eq_none.mp hfind a ha
          simpa using this)
      simp only [countKey, List.countP_append]
      rw [show List.countP
          (fun c => c.providerKey == pk && c.connectionId == cid) cs =
          countKey cs pk cid from rfl, hz]
      simp [List.countP_cons]
  | some ex =>
      have hmem : ex ∈ cs := List.mem_of_find?_eq_some hfind
      have hp := List.find?_some hfind
      have hpos : 0 < countKey cs pk cid :=
        List.countP_pos_iff.mpr ⟨ex, hmem, hp⟩
      have hone : countKey cs pk cid = 1 := by omega
      simp only [countKey, List.countP_map]
      have : ((fun c : Connection =>
          c.providerKey == pk && c.connectionId == cid) ∘
          (fun c => if c.id = ex.id then
            { c with
              accessTokenEnc := accessTokenEnc
              refreshTokenEnc := refreshTokenEnc
              tokenExpiresAt := tokenExpiresAt
              scopes := scopes
              rawCredentials := some rawCredentials
              updatedAt := now } else c)) =
          (fun c : Connection =>
            c.providerKey == pk && c.connectionId == cid) := by
        funext c
        by_cases hid : c.id = ex.id <;> simp [hid, Function.comp]
      rw [this]
      exact hone

/-- The refresh-on-read write never changes how many rows any
(providerKey, connectionId) pair has. -/
theorem countKey_refreshApply (cs : List Connection) (cid0 : Nat)
    (accessTokenEnc : String) (refreshTokenEnc : Option String)
    (tokenExpiresAt : Option Nat) (rawCredentials : String) (now : Nat)
    (pk cid : String) :
    countKey (refreshApply cs cid0 accessTokenEnc refreshTokenEnc
      tokenExpiresAt rawCredentials now) pk cid = countKey cs pk cid := by
  simp only [countKey, refreshApply, List.countP_map]
  congr 1
  funext c
  by_cases hid : c.id = cid0 <;> simp [hid, Function.comp]

/-- Whatever the token route does to the connection table, it either
leaves it unchanged or performs the refresh-success update on the
matched row. -/
theorem tokenGET_connections_shape (pk cid : String) (cs : List Connection)
    (resolve : String → Option ResolvedProvider) (http : RefreshHttp)
    (parse : String → TokenResponse) (dec : String → Except Unit String)
    (enc : String → String) (serialize : TokenResponse → String) (now : Nat) :
    (tokenGET pk cid cs resolve http parse dec enc serialize now).2.1 = cs ∨
    ∃ cid0 A R E W n,
      (tokenGET pk cid cs resolve http parse dec enc serialize now).2.1 =
        refreshApply cs cid0 A R E W n := by
  cases hfind : cs.find? (fun c => c.providerKey == pk && c.connectionId == cid) with
  | none =>
      left
      simp [tokenGET, hfind]
  | some conn =>
      by_cases hcond : (tokenIsExpired conn.tokenExpiresAt now &&
          jsTruthyS conn.refreshTokenEnc) = true
      · cases hres : resolve pk with
        | none => left; simp [tokenGET, hfind, hcond, hres]
        | some r =>
            cases hdecr : dec (conn.refreshTokenEnc.getD "") with
            | error e =>
                left
                cases hdeca : dec conn.accessTokenEnc <;>
                  simp [tokenGET, hfind, hcond, hres, hdecr, hdeca]
            | ok rt =>
                rcases href : refreshAccessToken r.config http parse with
                  ⟨res1, fetched⟩
                cases res1 with
                | error m =>
                    left
                    cases hdeca : dec conn.accessTokenEnc <;>
                      simp [tokenGET, hfind, hcond, hres, hdecr, href, hdeca]
                | ok tr =>
                    right
                    refine ⟨conn.id, enc tr.access_token,
                      (if jsTruthyS tr.refresh_token then
                        some (enc (tr.refresh_token.getD ""))
                       else conn.refreshTokenEnc),
                      tokenExpiryFrom tr.expires_in now, enc (serialize tr),
                      now, ?_⟩
                    rw [tokenGET_refreshSuccess pk cid cs resolve http parse
                      dec enc serialize now conn r rt tr fetched hfind hcond
                      hres hdecr href]
      · left
        cases hdeca : dec conn.accessTokenEnc <;>
          simp [tokenGET, hfind, hcond, hdeca]

/-- An existing connection row with a stored refresh token. -/
def c2conn : Connection where
  id := 2
  providerKey := "github"
  connectionId := "user-2"
  accessTokenEnc := "A-enc"
  refreshTokenEnc := some "R-enc"
  tokenExpiresAt := none
  scopes := some "repo"
  rawCredentials := none
  metadata := none
  createdAt := 0
  updatedAt := 0

/-- A pending session for the same (provider, externalId) pair as
`c2conn`. -/
def c2session : ConnectSession where
  id := 21
  token := "tok-21"
  providerKey := "github"
  connectionId := "user-2"
  state := "state-2"
  codeVerifier := none
  status := .pending
  redirectUri := none
  createdAt := 0
  expiresAt := 600000

/-- C2, counterexample: a second connect for an already-connected
(provider, externalId) pair whose token response carries no refresh
token.  The callback's update branch writes `refreshTokenEnc := null`,
overwriting the stored refresh token instead of preserving it. -/
theorem claim_C2_counterexample :
    c2conn.refreshTokenEnc = some "R-enc" ∧
    ((callbackGET ⟨some "abc", some "state-2", none, none⟩ [c2session]
        [c2conn] (fun _ => some cbResolved) ⟨true, 200, "body"⟩
        (fun _ => ⟨"tok-new", none, none, none, "raw"⟩) id (fun _ => "raw")
        1000 3).2.2.map Connection.refreshTokenEnc) = [none] := by
  constructor
  · rfl
  · decide

/-- C2, amended: neither write path ever creates a second row for a
(providerKey, connectionId) pair — the callback upsert leaves exactly
one row whenever at most one existed, and the refresh-on-read write
changes no pair's row count.  The refresh-on-read path preserves the
stored refresh token when the refresh response omits one, but the
callback (initial-connection) path overwrites the stored refresh token
with null in that case. -/
theorem claim_C2_amended :
    (∀ (cs : List Connection) (pk cid accessTokenEnc : String)
       (refreshTokenEnc : Option String) (tokenExpiresAt : Option Nat)
       (scopes : Option String) (rawCredentials : String) (now freshId : Nat),
       countKey cs pk cid ≤ 1 →
       countKey (upsertConnection cs pk cid accessTokenEnc refreshTokenEnc
         tokenExpiresAt scopes rawCredentials now freshId) pk cid = 1) ∧
    (∀ (pk cid : String) (cs : List Connection)
       (resolve : String → Option ResolvedProvider) (http : RefreshHttp)
       (parse : String → TokenResponse) (dec : String → Except Unit String)
       (enc : String → String) (serialize : TokenResponse → String)
       (now : Nat) (pk' cid' : String),
       countKey (tokenGET pk cid cs resolve http parse dec enc serialize
         now).2.1 pk' cid' = countKey cs pk' cid') ∧
    (∀ (pk cid : String) (cs : List Connection)
       (resolve : String → Option ResolvedProvider) (http : RefreshHttp)
       (parse : String → TokenResponse) (dec : String → Except Unit String)
       (enc : String → String) (serialize : TokenResponse → String)
       (now : Nat) (conn : Connection) (r : ResolvedProvider) (rt : String)
       (tr : TokenResponse) (fetched : Bool),
       cs.find? (fun c => c.providerKey == pk && c.connectionId == cid) =
         some conn →
       (tokenIsExpired conn.tokenExpiresAt now &&
         jsTruthyS conn.refreshTokenEnc) = true →
       resolve pk = some r →
       dec (conn.refreshTokenEnc.getD "") = .ok rt →
       refreshAccessToken r.config http parse = (.ok tr, fetched) →
       jsTruthyS tr.refresh_token = false →
       (tokenGET pk cid cs resolve http parse dec enc serialize now).2.1 =
         refreshApply cs conn.id (enc tr.access_token) conn.refreshTokenEnc
           (tokenExpiryFrom tr.expires_in now) (enc (serialize tr)) now) ∧
    (∀ (cs : List Connection) (pk cid accessTokenEnc : String)
       (tokenExpiresAt : Option Nat) (scopes : Option String)
       (rawCredentials : String) (now freshId : Nat) (ex c : Connection),
       cs.find? (fun c => c.providerKey == pk && c.connectionId == cid) =
         some ex →
       c ∈ upsertConnection cs pk cid accessTokenEnc none tokenExpiresAt
         scopes rawCredentials now freshId →
       c.id = ex.id → c.refreshTokenEnc = none) := by
  refine ⟨countKey_upsertConnection, ?_, ?_, ?_⟩
  · intro pk cid cs resolve http parse dec enc serialize now pk' cid'
    rcases tokenGET_connections_shape pk cid cs resolve http parse dec enc
      serialize now with h | ⟨cid0, A, R, E, W, n, h⟩
    · rw [h]
    · rw [h]
      exact countKey_refreshApply cs cid0 A R E W n pk' cid'
  · intro pk cid cs resolve http parse dec enc serialize now conn r rt tr
      fetched hfind hcond hres hdecr href hnort
    rw [tokenGET_refreshSuccess pk cid cs resolve http parse dec enc serialize
      now conn r rt tr fetched hfind hcond hres hdecr href]
    simp [hnort]
  · intro cs pk cid accessTokenEnc tokenExpiresAt scopes rawCredentials now
      freshId ex c hfind hmem hid
    unfold upsertConnection at hmem
    rw [hfind] at hmem
    rcases List.mem_map.mp hmem with ⟨a, _, ha⟩
    by_cases haid : a.id = ex.id
    · rw [← ha]
      simp [haid]
    · rw [← ha] at hid ⊢
      simp [haid] at hid

/-- A synthetic descriptor with a distinct refresh endpoint (none of the
four shipped configs has one, and the refresh-path claims quantify over
descriptors). -/
def refreshProvider : ProviderConfig where
  key := "acme"
  name := "Acme"
  authorizationUrl := "https://acme.example/authorize"
  tokenUrl := "https://acme.example/token"
  refreshUrl := some "https://acme.example/refresh"
  defaultScopes := ["read"]
  scopeSeparator := " "
  tokenResponseType := .json
  authorizationParams := []
  pkce := false
  tokenAuthMethod := .body

/-- Resolved credentials for `refreshProvider`. -/
def refreshResolved : ResolvedProvider where
  config := refreshProvider
  clientId := "cid"
  clientSecret := "sec"
  scopes := "read"
  enabled := true

/-- A connection for `refreshProvider` whose token expired at 100 and
which stores a refresh token. -/
def c2rconn : Connection where
  id := 3
  providerKey := "acme"
  connectionId := "user-3"
  accessTokenEnc := "A3"
  refreshTokenEnc := some "R3"
  tokenExpiresAt := some 100
  scopes := some "read"
  rawCredentials := none
  metadata := none
  createdAt := 0
  updatedAt := 0

/-- A refresh response carrying no refresh token and a fresh scope. -/
def refreshedTR : TokenResponse where
  access_token := "tok-new"
  refresh_token := none
  expires_in := some 3600
  scope := some "scope-new"
  raw := "raw"

/-- C2, witness: the four amended conjuncts at concrete inputs — a
fresh insert leaves one row; a concrete token-route run changes no row
count; a concrete refresh run with no refresh token in the response
keeps the stored `some "R3"`; and the callback update branch writes
`none` over a stored refresh token. -/
theorem claim_C2_witness :
    countKey (upsertConnection [] "github" "user-2" "A" none none
      (some "repo") "W" 0 7) "github" "user-2" = 1 ∧
    countKey (tokenGET "github" "user-2" [c2conn] (fun _ => none)
      (.response ⟨true, 200, ""⟩) trivialParse (fun s => .ok s) id
      (fun _ => "") 1000).2.1 "github" "user-2" =
      countKey [c2conn] "github" "user-2" ∧
    (tokenGET "acme" "user-3" [c2rconn] (fun _ => some refreshResolved)
      (.response ⟨true, 200, "rbody"⟩) (fun _ => refreshedTR)
      (fun s => .ok s) id (fun _ => "raw-s") 1000).2.1 =
      refreshApply [c2rconn] c2rconn.id (id refreshedTR.access_token)
        c2rconn.refreshTokenEnc (tokenExpiryFrom refreshedTR.expires_in 1000)
        (id "raw-s") 1000 ∧
    ({ c2conn with
        accessTokenEnc := "A2"
        refreshTokenEnc := none
        tokenExpiresAt := none
        scopes := some "repo"
        rawCredentials := some "W"
        updatedAt := 5 } : Connection).refreshTokenEnc = none := by
  refine ⟨?_, ?_, ?_, ?_⟩
  · exact claim_C2_amended.1 [] "github" "user-2" "A" none none (some "repo")
      "W" 0 7 (by decide)
  · exact claim_C2_amended.2.1 "github" "user-2" [c2conn] (fun _ => none)
      (.response ⟨true, 200, ""⟩) trivialParse (fun s => .ok s) id
      (fun _ => "") 1000 "github" "user-2"
  · exact claim_C2_amended.2.2.1 "acme" "user-3" [c2rconn]
      (fun _ => some refreshResolved) (.response ⟨true, 200, "rbody"⟩)
      (fun _ => refreshedTR) (fun s => .ok s) id (fun _ => "raw-s") 1000
      c2rconn refreshResolved "R3" refreshedTR true rfl (by decide) rfl rfl
      rfl rfl
  · exact claim_C2_amended.2.2.2 [c2conn] "github" "user-2" "A2" none
      (some "repo") "W" 5 8 c2conn
      { c2conn with
        accessTokenEnc := "A2"
        refreshTokenEnc := none
        tokenExpiresAt := none
        scopes := some "repo"
        rawCredentials := some "W"
        updatedAt := 5 } rfl (by decide) rfl

/- ──────────────────────────  Claims C3 and C6  ───────────────────────── -/

/-- A GitHub connection whose token expired at 100 and which stores a
refresh token. -/
def c3conn : Connection where
  id := 5
  providerKey := "github"
  connectionId := "user-5"
  accessTokenEnc := "A5"
  refreshTokenEnc := some "R5"
  tokenExpiresAt := some 100
  scopes := some "repo"
  rawCredentials := none
  metadata := none
  createdAt := 0
  updatedAt := 0

/-- C3, counterexample: with an expired token and a stored refresh
token, a provider that fails to resolve (no enabled credentials — the
claim's "provider misconfigured/not configured" case) makes the route
answer with a 500 provider-not-configured error instead of swallowing
the failure and returning the stored access token. -/
theorem claim_C3_counterexample :
    (tokenGET "github" "user-5" [c3conn] (fun _ => none)
        (.response ⟨true, 200, ""⟩) trivialParse (fun s => .ok s) id
        (fun _ => "") 1000).1 = .providerNotConfigured ∧
    (tokenGET "github" "user-5" [c3conn] (fun _ => none)
        (.response ⟨true, 200, ""⟩) trivialParse (fun s => .ok s) id
        (fun _ => "") 1000).1 ≠ .token "A5" (some 100) false := by
  constructor
  · decide
  · decide

/-- C3, amended: when the provider resolves, a failure of the refresh
attempt itself (stored refresh token fails to decrypt, or the refresh
call errors — network failure, non-success response, or no refresh
endpoint) is swallowed: the route returns the existing (possibly
expired) access token with `refreshed=false` and writes nothing.  But
when the provider does not resolve (misconfigured/not configured), the
route fails the read with a provider-not-configured error instead. -/
theorem claim_C3_amended :
    (∀ (pk cid : String) (cs : List Connection)
       (resolve : String → Option ResolvedProvider) (http : RefreshHttp)
       (parse : String → TokenResponse) (dec : String → Except Unit String)
       (enc : String → String) (serialize : TokenResponse → String)
       (now : Nat) (conn : Connection) (r : ResolvedProvider) (t : String),
       cs.find? (fun c => c.providerKey == pk && c.connectionId == cid) =
         some conn →
       (tokenIsExpired conn.tokenExpiresAt now &&
         jsTruthyS conn.refreshTokenEnc) = true →
       resolve pk = some r →
       (dec (conn.refreshTokenEnc.getD "") = .error () ∨
        ∃ rt m fetched, dec (conn.refreshTokenEnc.getD "") = .ok rt ∧
          refreshAccessToken r.config http parse = (.error m, fetched)) →
       dec conn.accessTokenEnc = .ok t →
       (tokenGET pk cid cs resolve http parse dec enc serialize now).1 =
         .token t conn.tokenExpiresAt false ∧
       (tokenGET pk cid cs resolve http parse dec enc serialize now).2.1 =
         cs) ∧
    (∀ (pk cid : String) (cs : List Connection)
       (resolve : String → Option ResolvedProvider) (http : RefreshHttp)
       (parse : String → TokenResponse) (dec : String → Except Unit String)
       (enc : String → String) (serialize : TokenResponse → String)
       (now : Nat) (conn : Connection),
       cs.find? (fun c => c.providerKey == pk && c.connectionId == cid) =
         some conn →
       (tokenIsExpired conn.tokenExpiresAt now &&
         jsTruthyS conn.refreshTokenEnc) = true →
       resolve pk = none →
       tokenGET pk cid cs resolve http parse dec enc serialize now =
         (.providerNotConfigured, cs, false)) := by
  constructor
  · intro pk cid cs resolve http parse dec enc serialize now conn r t hfind
      hcond hres hfail hdeca
    rcases hfail with hdecr | ⟨rt, m, fetched, hdecr, href⟩
    · rw [tokenGET_refreshDecFail pk cid cs resolve http parse dec enc
        serialize now conn r t hfind hcond hres hdecr hdeca]
      exact ⟨rfl, rfl⟩
    · rw [tokenGET_refreshError pk cid cs resolve http parse dec enc serialize
        now conn r rt t m fetched hfind hcond hres hdecr href hdeca]
      exact ⟨rfl, rfl⟩
  · intro pk cid cs resolve http parse dec enc serialize now conn hfind hcond
      hres
    exact tokenGET_notConfigured pk cid cs resolve http parse dec enc
      serialize now conn hfind hcond hres

/-- C3, witness: a concrete failed refresh (network error) degrades to
the stored expired token with `refreshed=false`; a concrete
unresolvable provider yields the 500. -/
theorem claim_C3_witness :
    (tokenGET "acme" "user-3" [c2rconn] (fun _ => some refreshResolved)
        (.networkError "ECONNRESET") (fun _ => refreshedTR) (fun s => .ok s)
        id (fun _ => "raw-s") 1000).1 = .token "A3" (some 100) false ∧
    tokenGET "github" "user-5" [c3conn] (fun _ => none)
        (.response ⟨true, 200, ""⟩) trivialParse (fun s => .ok s) id
        (fun _ => "") 1000 = (.providerNotConfigured, [c3conn], false) := by
  constructor
  · exact (claim_C3_amended.1 "acme" "user-3" [c2rconn]
      (fun _ => some refreshResolved) (.networkError "ECONNRESET")
      (fun _ => refreshedTR) (fun s => .ok s) id (fun _ => "raw-s") 1000
      c2rconn refreshResolved "A3" rfl (by decide) rfl
      (Or.inr ⟨"R3", "ECONNRESET", true, rfl, rfl⟩) rfl).1
  · exact claim_C3_amended.2 "github" "user-5" [c3conn] (fun _ => none)
      (.response ⟨true, 200, ""⟩) trivialParse (fun s => .ok s) id
      (fun _ => "") 1000 c3conn rfl (by decide) rfl

/-- C6, counterexample: GitHub's descriptor has no refresh endpoint, yet
with an expired token, a stored refresh token and unresolvable
credentials the route answers provider-not-configured instead of
"always" returning the stored access token with `refreshed=false`. -/
theorem claim_C6_counterexample :
    github.refreshUrl = none ∧
    tokenGET "github" "user-5" [c3conn] (fun _ => none)
        (.response ⟨true, 200, ""⟩) trivialParse (fun s => .ok s) id
        (fun _ => "") 2000 = (.providerNotConfigured, [c3conn], false) ∧
    (tokenGET "github" "user-5" [c3conn] (fun _ => none)
        (.response ⟨true, 200, ""⟩) trivialParse (fun s => .ok s) id
        (fun _ => "") 2000).1 ≠ .token "A5" (some 100) false := by
  refine ⟨rfl, by decide, by decide⟩

/-- C6, amended: for a resolvable provider whose descriptor has no
refresh endpoint, the token route never performs a refresh HTTP request
— whatever the expiry state and whether a refresh token is stored — and
(when the stored access token decrypts) returns it with
`refreshed=false`, writing nothing.  When the provider's credentials do
not resolve while the token is expired and a refresh token is stored,
the route instead fails with provider-not-configured. -/
theorem claim_C6_amended (pk cid : String) (cs : List Connection)
    (resolve : String → Option ResolvedProvider) (http : RefreshHttp)
    (parse : String → TokenResponse) (dec : String → Except Unit String)
    (enc : String → String) (serialize : TokenResponse → String) (now : Nat)
    (conn : Connection) (r : ResolvedProvider) (t : String)
    (hres : resolve pk = some r) (hru : r.config.refreshUrl = none)
    (hfind : cs.find? (fun c => c.providerKey == pk && c.connectionId == cid) =
      some conn)
    (hdeca : dec conn.accessTokenEnc = .ok t) :
    tokenGET pk cid cs resolve http parse dec enc serialize now =
      (.token t conn.tokenExpiresAt false, cs, false) := by
  by_cases hcond : (tokenIsExpired conn.tokenExpiresAt now &&
      jsTruthyS conn.refreshTokenEnc) = true
  · cases hdecr : dec (conn.refreshTokenEnc.getD "") with
    | error e =>
        cases e
        exact tokenGET_refreshDecFail pk cid cs resolve http parse dec enc
          serialize now conn r t hfind hcond hres hdecr hdeca
    | ok rt =>
        have href : refreshAccessToken r.config http parse =
            (.error ("Provider \x22" ++ r.config.key ++
              "\x22 does not support token refresh"), false) := by
          simp [refreshAccessToken, hru]
        exact tokenGET_refreshError pk cid cs resolve http parse dec enc
          serialize now conn r rt t _ false hfind hcond hres hdecr href hdeca
  · exact tokenGET_stale pk cid cs resolve http parse dec enc serialize now
      conn t hfind (Bool.eq_false_iff.mpr hcond) hdeca

/-- C6, witness: GitHub resolved with credentials, expired token and
stored refresh token — no refresh request happens and the stored token
comes back with `refreshed=false`. -/
theorem claim_C6_witness :
    tokenGET "github" "user-5" [c3conn] (fun _ => some cbResolved)
      (.response ⟨true, 200, ""⟩) trivialParse (fun s => .ok s) id
      (fun _ => "") 2000 = (.token "A5" (some 100) false, [c3conn], false) := by
  exact claim_C6_amended "github" "user-5" [c3conn] (fun _ => some cbResolved)
    (.response ⟨true, 200, ""⟩) trivialParse (fun s => .ok s) id
    (fun _ => "") 2000 c3conn cbResolved "A5" rfl rfl rfl rfl

/- ─────────────────────────────  Claim C10  ───────────────────────────── -/

/-- C10: the refresh-on-read write after a successful refresh is exactly
the `refreshApply` update on the matched row: only accessTokenEnc,
refreshTokenEnc, tokenExpiresAt, rawCredentials and updatedAt change;
every row's id, providerKey, connectionId, scopes, metadata and
createdAt are unchanged (in particular a new granted-scope string from
the refresh response is never persisted), and rows with a different id
are untouched. -/
theorem claim_C10 (pk cid : String) (cs : List Connection)
    (resolve : String → Option ResolvedProvider) (http : RefreshHttp)
    (parse : String → TokenResponse) (dec : String → Except Unit String)
    (enc : String → String) (serialize : TokenResponse → String) (now : Nat)
    (conn : Connection) (r : ResolvedProvider) (rt : String)
    (tr : TokenResponse) (fetched : Bool)
    (hfind : cs.find? (fun c => c.providerKey == pk && c.connectionId == cid) =
      some conn)
    (hcond : (tokenIsExpired conn.tokenExpiresAt now &&
      jsTruthyS conn.refreshTokenEnc) = true)
    (hres : resolve pk = some r)
    (hdecr : dec (conn.refreshTokenEnc.getD "") = .ok rt)
    (href : refreshAccessToken r.config http parse = (.ok tr, fetched)) :
    (tokenGET pk cid cs resolve http parse dec enc serialize now).2.1 =
      refreshApply cs conn.id (enc tr.access_token)
        (if jsTruthyS tr.refresh_token then
          some (enc (tr.refresh_token.getD ""))
         else conn.refreshTokenEnc)
        (tokenExpiryFrom tr.expires_in now) (enc (serialize tr)) now ∧
    ∀ c' ∈ (tokenGET pk cid cs resolve http parse dec enc serialize
        now).2.1, ∃ c, c ∈ cs ∧ c'.id = c.id ∧
      c'.providerKey = c.providerKey ∧ c'.connectionId = c.connectionId ∧
      c'.scopes = c.scopes ∧ c'.metadata = c.metadata ∧
      c'.createdAt = c.createdAt ∧ (c.id ≠ conn.id → c' = c) := by
  have h1 := tokenGET_refreshSuccess pk cid cs resolve http parse dec enc
    serialize now conn r rt tr fetched hfind hcond hres hdecr href
  constructor
  · rw [h1]
  · rw [h1]
    intro c' hc'
    rcases List.mem_map.mp hc' with ⟨c, hc, hfc⟩
    by_cases hid : c.id = conn.id
    · refine ⟨c, hc, ?_, ?_, ?_, ?_, ?_, ?_, fun hne => absurd hid hne⟩ <;>
        rw [← hfc] <;> simp [hid]
    · refine ⟨c, hc, ?_, ?_, ?_, ?_, ?_, ?_, fun _ => ?_⟩ <;>
        rw [← hfc] <;> simp [hid]

/-- C10, witness: the concrete refresh run leaves id, keys, scopes,
metadata and createdAt of the single row unchanged while rewriting only
the five token fields. -/
theorem claim_C10_witness :
    (tokenGET "acme" "user-3" [c2rconn] (fun _ => some refreshResolved)
        (.response ⟨true, 200, "rbody"⟩) (fun _ => refreshedTR)
        (fun s => .ok s) id (fun _ => "raw-s") 1000).2.1 =
      refreshApply [c2rconn] c2rconn.id (id refreshedTR.access_token)
        (if jsTruthyS refreshedTR.refresh_token then
          some (id (refreshedTR.refresh_token.getD ""))
         else c2rconn.refreshTokenEnc)
        (tokenExpiryFrom refreshedTR.expires_in 1000) (id "raw-s") 1000 := by
  exact (claim_C10 "acme" "user-3" [c2rconn] (fun _ => some refreshResolved)
    (.response ⟨true, 200, "rbody"⟩) (fun _ => refreshedTR) (fun s => .ok s)
    id (fun _ => "raw-s") 1000 c2rconn refreshResolved "R3" refreshedTR true
    rfl (by decide) rfl rfl rfl).1

end OpenAuth
